import Mathlib

/-!
Verification of the scos-actions sample-processing pipeline.

This file gives a shallow embedding of the numeric pipeline of the
repository: the NASCTN SEA data-product action
(`acquire_sea_data_product.py`), the Y-factor calibration action
(`calibrate_y_factor.py`), and the stepped-frequency time-domain IQ
action (`acquire_stepped_freq_tdomain_iq.py`).  Machine floats are
idealized as real numbers, numpy arrays as lists, Python dicts as
association lists, and raised exceptions as `Option`/`Except` values.
Library routines from `scos_actions.signal_processing` whose sources are
not part of the reviewed tree are modelled from the specification and
are marked as such in their doc comments.
-/

/-- Python `int()` applied to an exact rational: truncation toward zero. -/
def pyInt (q : ℚ) : ℤ := if 0 ≤ q then ⌊q⌋ else -⌊-q⌋

/-- Arithmetic mean of a list of reals (`np.mean`); 0/0 on the empty list. -/
noncomputable def listMean (l : List ℝ) : ℝ := l.sum / l.length

/-- Maximum of a list of reals (`np.max`); the empty case, an error in
numpy, is given the junk value 0 and is never reached in the theorems. -/
noncomputable def listMax : List ℝ → ℝ
  | [] => 0
  | x :: xs => xs.foldl max x

/-- Minimum of a list of reals (`np.min`); junk value 0 on the empty list. -/
noncomputable def listMin : List ℝ → ℝ
  | [] => 0
  | x :: xs => xs.foldl min x

/-- `np.nanmean` over a row in which invalid (NaN) entries are `none`. -/
noncomputable def optMean (l : List (Option ℝ)) : ℝ := listMean (l.filterMap id)

/-- `np.nanmax` over a row in which invalid (NaN) entries are `none`. -/
noncomputable def optMax (l : List (Option ℝ)) : ℝ := listMax (l.filterMap id)

/-- `np.fft.fftshift` on a 1-d array: roll right by `length / 2`, so that
index 0 afterwards holds the most negative frequency. -/
def fftshift (l : List α) : List α := l.rotate (l.length - l.length / 2)

/-- Split the first `n * b` elements of `l` into `n` consecutive chunks of
length `b` (the row-major view taken by `ndarray.reshape`). -/
def chunkList (n b : ℕ) (l : List α) : List (List α) :=
  (List.range n).map fun i => (l.drop (i * b)).take b

/-- `ndarray.reshape (n, b)`: succeeds only when the total size matches;
numpy raises `ValueError` otherwise, modelled as `none`. -/
def reshapeExact (n b : ℕ) (l : List α) : Option (List (List α)) :=
  if l.length = n * b then some (chunkList n b l) else none

/-! ### Python dict primitives

The actions treat their parameter mapping as a Python dict.  A dict is
modelled as an association list with unique keys; `dict.pop(key)` with no
default raises `KeyError` when the key is absent. -/

/-- Exceptions raised by the SEA action's entrypoint. -/
inductive PyErr where
  | keyError (k : String)
  | runtimeError (msg : String)
  deriving DecidableEq

/-- `params.pop(k)` on a dict: remove the binding of `k` and return it
together with the remaining mapping, or `none` (KeyError) if absent. -/
def pop_key (params : List (String × α)) (k : String) :
    Option (α × List (String × α)) :=
  match params.lookup k with
  | none => none
  | some v => some (v, params.filter fun kv => kv.1 != k)

/-- Pop each key of `ks` in order from the mapping, failing with
`KeyError` at the first absent key, as the `for key in [...]` loop at the
top of `NasctnSeaDataProduct.__call__` does. -/
def pop_keys (ks : List String) (params : List (String × α)) :
    Except PyErr (List (String × α)) :=
  match ks with
  | [] => .ok params
  | k :: rest =>
    match pop_key params k with
    | none => .error (.keyError k)
    | some (_, params') => pop_keys rest params'

/-- The seven temporary configuration keys removed (without a default) by
`NasctnSeaDataProduct.__call__` before anything else happens. -/
def sea_config_keys : List String :=
  ["iir_rp_dB", "iir_rs_dB", "iir_cutoff_Hz", "iir_width_Hz",
   "qfilt_qlo", "qfilt_qhi", "fft_window_type"]

/-- Prologue of `NasctnSeaDataProduct.__call__`: first pop the seven
temporary configuration keys from the shared parameter dict, then run
`test_required_components`, which raises `RuntimeError` when the signal
analyzer is unavailable.  Acquisition follows only after both steps. -/
def sea_call_prologue (siganAvailable : Bool) (params : List (String × α)) :
    Except PyErr (List (String × α)) := do
  let params' ← pop_keys sea_config_keys params
  if siganAvailable then .ok params'
  else .error (.runtimeError "Acquisition failed: signal analyzer is not available")

/-! ### Stepped-frequency time-domain IQ action -/

/-- Center frequency of one per-step parameter dict: `params["frequency"]`
(0 as junk default; every configured step carries a frequency). -/
def stepFreq (s : List (String × ℚ)) : ℚ := (s.lookup "frequency").getD 0

/-- Number of per-step dicts produced by
`[dict(zip(parameters, v)) for v in zip(*parameters.values())]`:
Python's `zip` truncates to the shortest value list. -/
def numSteps (params : List (String × List ℚ)) : ℕ :=
  ((params.map fun kv => kv.2.length).min?).getD 0

/-- The `i`-th per-step dict: each key paired with the `i`-th entry of its
value list. -/
def stepAt (params : List (String × List ℚ)) (i : ℕ) : List (String × ℚ) :=
  params.map fun kv => (kv.1, kv.2.getD i 0)

/-- The list of per-step parameter dicts, in the configured order. -/
def buildSteps (params : List (String × List ℚ)) : List (List (String × ℚ)) :=
  (List.range (numSteps params)).map (stepAt params)

/-- `SteppedFrequencyTimeDomainIqAcquisition.__init__`: pop the `name`
key from the parameter mapping, build one dict per step, and sort the
dicts by ascending center frequency.  `__call__` then acquires in exactly
this order. -/
def sorted_measurement_parameters (params : List (String × List ℚ)) :
    List (List (String × ℚ)) :=
  (buildSteps (params.filter fun kv => kv.1 != "name")).mergeSort
    fun a b => decide (stepFreq a ≤ stepFreq b)

/-- The sequence of center frequencies visited by the capture loop of
`SteppedFrequencyTimeDomainIqAcquisition.__call__`. -/
def acquisition_order (params : List (String × List ℚ)) : List ℚ :=
  (sorted_measurement_parameters params).map stepFreq

/-! ### Signal-processing primitives

The `scos_actions.signal_processing` modules (`fft`, `power_analysis`,
`apd`, `unit_conversion`, `calibration`) are imported by the actions but
their sources are not part of the reviewed tree; each definition below
is modelled from the specification's description of them. -/

/-- Modelled from the spec: `convert_linear_to_dB` of
`signal_processing.unit_conversion`, the decibel of a linear ratio,
`10 log10 x`. -/
noncomputable def convert_linear_to_dB (x : ℝ) : ℝ := 10 * Real.logb 10 x

/-- Modelled from the spec: `convert_watts_to_dBm` of
`signal_processing.unit_conversion`: `10 log10 W + 30`. -/
noncomputable def convert_watts_to_dBm (w : ℝ) : ℝ := 10 * Real.logb 10 w + 30

/-- Modelled from the spec: `calculate_pseudo_power` of
`signal_processing.power_analysis`, the squared magnitude of one complex
value (spec 4.3 step 4). -/
noncomputable def calculate_pseudo_power (z : ℂ) : ℝ := Complex.normSq z

/-- Modelled from the spec: `calculate_power_watts` of
`signal_processing.power_analysis` applied to one sample: squared
magnitude divided by the system impedance (50 Ω by default, spec 4.4
step 2). -/
noncomputable def calculate_power_watts (impedanceOhms : ℝ) (z : ℂ) : ℝ :=
  Complex.normSq z / impedanceOhms

/-- Modelled from the spec: `get_fft_window_correction(window, "energy")`
of `signal_processing.fft`: the energy correction factor
`ecf = sqrt(N / sum(window²))` (spec 4.3 step 1). -/
noncomputable def get_fft_window_correction (w : List ℝ) : ℝ :=
  Real.sqrt (w.length / (w.map fun x => x ^ 2).sum)

/-- Modelled from the spec: the forward-normalized discrete Fourier
transform of one frame (spec 4.3 step 3): bin `k` is the frame correlated
against `exp(-2πi k n / N)`, divided by `N`. -/
noncomputable def dftForward (frame : List ℂ) : List ℂ :=
  (List.range frame.length).map fun k =>
    (∑ n ∈ Finset.range frame.length,
      frame.getD n 0 *
        Complex.exp (-2 * Real.pi * Complex.I * k * n / frame.length)) /
      frame.length

/-- Modelled from the spec: `get_fft(time_data, fft_size, norm="forward",
fft_window, num_ffts, shift=False)` of `signal_processing.fft`: reshape
the buffer into `num_ffts` consecutive non-overlapping frames of length
`fft_size` (failing with `InsufficientSamplesError`, modelled as `none`,
when `num_ffts * fft_size` exceeds the sample count), window each frame,
and take the forward-normalized FFT of each; no frequency shift here. -/
noncomputable def get_fft (window : List ℝ) (fftSize numFfts : ℕ)
    (iq : List ℂ) : Option (List (List ℂ)) :=
  if numFfts * fftSize ≤ iq.length then
    some ((chunkList numFfts fftSize iq).map fun frame =>
      dftForward (List.zipWith (fun (a : ℝ) (z : ℂ) => ↑a * z) window frame))
  else none

/-- Modelled from the spec: the `mean` statistic of a power detector
reducing across the leading (repeated-measurement) axis: column-wise
arithmetic mean (spec 4.1, 4.3 step 5). -/
noncomputable def fft_mean_detector (frames : List (List ℝ)) : List ℝ :=
  frames.transpose.map listMean

/-- Modelled from the spec: the `max` statistic of a power detector
reducing across the leading axis: column-wise maximum. -/
noncomputable def fft_max_detector (frames : List (List ℝ)) : List ℝ :=
  frames.transpose.map listMax

open Classical in
/-- Modelled from the spec: the linearly interpolated `q`-th quantile of
a list (`np.quantile` with the default linear method). -/
noncomputable def quantileR (q : ℝ) (l : List ℝ) : ℝ :=
  let s := l.mergeSort fun a b => decide (a ≤ b)
  let h : ℝ := q * ((l.length : ℝ) - 1)
  let i := (⌊h⌋).toNat
  let lo := s.getD i 0
  let hi := s.getD (i + 1) lo
  lo + (h - ⌊h⌋) * (hi - lo)

open Classical in
/-- Modelled from the spec: `filter_quantiles` of
`signal_processing.power_analysis`: per block, mask to invalid (NaN,
modelled as `none`) every power sample falling outside the inclusive
quantile range `[qlo, qhi]` of that block's own power distribution; the
shape is preserved (spec 4.4 step 3). -/
noncomputable def filter_quantiles (qlo qhi : ℝ) (blocks : List (List ℝ)) :
    List (List (Option ℝ)) :=
  blocks.map fun b =>
    let lo := quantileR qlo b
    let hi := quantileR qhi b
    b.map fun x => if lo ≤ x ∧ x ≤ hi then some x else none

open Classical in
/-- Modelled from the spec: `get_apd(iqdata, bin_size_dB)` of
`signal_processing.apd`: express sample magnitudes in dBV, lay an
amplitude axis spaced `bin_size_dB` apart across the observed dynamic
range, and return for each threshold the probability that the sample
amplitude exceeds it, together with the dBV amplitude axis
(probability first, amplitude second). -/
noncomputable def get_apd (binSizeDb : ℝ) (iq : List ℂ) :
    List ℝ × List ℝ :=
  let ampDb : List ℝ := iq.map fun z => 10 * Real.logb 10 (Complex.normSq z)
  let lo := listMin ampDb
  let hi := listMax ampDb
  let nBins := (⌈(hi - lo) / binSizeDb⌉).toNat + 1
  let axis := (List.range nBins).map fun k => lo + k * binSizeDb
  let prob := axis.map fun t =>
    ((ampDb.filter fun m => decide (t < m)).length : ℝ) / iq.length
  (prob, axis)

/-! ### NASCTN SEA data-product action

Embedding of `NasctnSeaDataProduct` from
`src/scos_actions/actions/acquire_sea_data_product.py`.  External
library operations whose numeric semantics this repository does not
define (scipy's `sosfilt` with the designed coefficients, numpy's
elementwise `round` and `astype(np.half)`) are carried as opaque
function fields of the context. -/

/-- The per-iteration parameters consumed by
`NasctnSeaDataProduct.generate_data_product` and its helpers. -/
structure SeaParams where
  iirApply : Bool
  qfiltApply : Bool
  fftSize : ℕ
  nffts : ℕ
  apdBinSizeDb : ℝ
  tdBinSizeMs : ℚ
  sampleRate : ℚ
  roundTo : ℤ

/-- Instance state of `NasctnSeaDataProduct` fixed at construction, plus
the external library operations it calls. -/
structure SeaCtx where
  fftWindow : List ℝ
  sampleRateHz : ℝ
  qfiltQlo : ℝ
  qfiltQhi : ℝ
  sosFilt : List ℂ → List ℂ
  npRound : ℤ → ℝ → ℝ
  npHalf : ℝ → ℝ

/-- The post-detector scaling chain of
`NasctnSeaDataProduct.get_fft_results`, applied to one detector row:
divide by 50 to finish the conversion to Watts, fft-shift, convert to
dBm, subtract 3 dB (baseband/RF), subtract `10 log10(sample_rate)` (PSD
scaling), add `20 log10(ecf)` (window energy correction). -/
noncomputable def fft_scaling (ctx : SeaCtx) (row : List ℝ) : List ℝ :=
  let watts := row.map fun x => x / 50
  let shifted := fftshift watts
  let dBm := shifted.map convert_watts_to_dBm
  let bb := dBm.map fun x => x - 3
  let psd := bb.map fun x => x - 10 * Real.logb 10 ctx.sampleRateHz
  psd.map fun x => x + 20 * Real.logb 10 (get_fft_window_correction ctx.fftWindow)

/-- `NasctnSeaDataProduct.get_fft_results`: forward-normalized windowed
FFT frames of the (unfiltered) IQ, per-bin pseudo-power, mean and max
detectors across frames, then the scaling chain `fft_scaling`; returns
the mean row first and the max row second. -/
noncomputable def get_fft_results (ctx : SeaCtx) (p : SeaParams)
    (iq : List ℂ) : Option (List ℝ × List ℝ) :=
  (get_fft ctx.fftWindow p.fftSize p.nffts iq).map fun frames =>
    let pseudoPower := frames.map fun fr => fr.map calculate_pseudo_power
    (fft_scaling ctx (fft_mean_detector pseudoPower),
     fft_scaling ctx (fft_max_detector pseudoPower))

/-- `block_size = int(params["td_bin_size_ms"] * params["sample_rate"] * 1e-3)`
in `NasctnSeaDataProduct.get_td_power_results`. -/
def td_block_size (p : SeaParams) : ℤ := pyInt (p.tdBinSizeMs * p.sampleRate / 1000)

/-- `NasctnSeaDataProduct.get_td_power_results`: reshape the IQ buffer
into `len(iqdata) // block_size` blocks of `block_size` samples (numpy's
`reshape` fails unless the sizes agree exactly), compute per-sample
power in Watts at 50 Ω, optionally quantile-filter each block, apply the
NaN-ignoring mean and max detectors per block, convert to dBm and
subtract 3 dB. -/
noncomputable def get_td_power_results (ctx : SeaCtx) (p : SeaParams)
    (iq : List ℂ) : Option (List ℝ × List ℝ) := do
  let bs := (td_block_size p).toNat
  let nBlocks := iq.length / bs
  let blocks ← reshapeExact nBlocks bs iq
  let iqPwr := blocks.map fun b => b.map (calculate_power_watts 50)
  let iqPwrMasked :=
    if p.qfiltApply then filter_quantiles ctx.qfiltQlo ctx.qfiltQhi iqPwr
    else iqPwr.map fun b => b.map some
  let meanRow := (iqPwrMasked.map optMean).map fun w => convert_watts_to_dBm w - 3
  let maxRow := (iqPwrMasked.map optMax).map fun w => convert_watts_to_dBm w - 3
  pure (meanRow, maxRow)

/-- `NasctnSeaDataProduct.get_apd_results`: run `get_apd`, then rescale
only the amplitude axis by `a * 2 + (27 - convert_linear_to_dB 50)`; the
probability axis is returned as produced. -/
noncomputable def get_apd_results (p : SeaParams) (iq : List ℂ) :
    List ℝ × List ℝ :=
  let pa := get_apd p.apdBinSizeDb iq
  let scaleFactor := 27 - convert_linear_to_dB 50
  (pa.1, pa.2.map fun a => a * 2 + scaleFactor)

/-- The IQ buffer seen by the time-domain and APD stages of
`NasctnSeaDataProduct.generate_data_product`: the IIR low-pass filter is
applied only when `params["iir_apply"]` is enabled. -/
def filtered_iq (ctx : SeaCtx) (p : SeaParams) (iq : List ℂ) : List ℂ :=
  if p.iirApply then ctx.sosFilt iq else iq

/-- The list of six arrays assembled by
`NasctnSeaDataProduct.generate_data_product` before precision reduction:
FFT mean, FFT max, TD mean, TD max, APD probability, APD amplitude. -/
noncomputable def assemble_data_product (ctx : SeaCtx) (p : SeaParams)
    (iq : List ℂ) : Option (List (List ℝ)) := do
  let fftRes ← get_fft_results ctx p iq
  let tdRes ← get_td_power_results ctx p (filtered_iq ctx p iq)
  pure [fftRes.1, fftRes.2, tdRes.1, tdRes.2,
        (get_apd_results p (filtered_iq ctx p iq)).1,
        (get_apd_results p (filtered_iq ctx p iq)).2]

/-- The two precision-reduction loops at the end of
`NasctnSeaDataProduct.generate_data_product`: round every array in place
to `params["round_to_places"]` decimals, skipping only index 4, then
convert every array to half precision. -/
noncomputable def quantize_data_product (ctx : SeaCtx) (places : ℤ)
    (dp : List (List ℝ)) : List (List ℝ) :=
  ((dp.enum.map fun d => if d.1 = 4 then d.2 else d.2.map (ctx.npRound places)).map
    fun d => d.map ctx.npHalf)

/-- `NasctnSeaDataProduct.generate_data_product`: assemble the six
arrays, then reduce precision. -/
noncomputable def generate_data_product (ctx : SeaCtx) (p : SeaParams)
    (iq : List ℂ) : Option (List (List ℝ)) :=
  (assemble_data_product ctx p iq).map (quantize_data_product ctx p.roundTo)

/-! ### Y-factor calibration action

Embedding of `YFactorCalibration.calibrate` from
`src/scos_actions/actions/calibrate_y_factor.py`.  The calibration store
is modelled as the list of `(gain, noise_figure)` pairs posted to
`sensor_calibration.update`; `scipy.signal.sosfilt` with the designed
coefficients is an opaque context field; the looked-up ENR, temperature
and stored sensor ENBW are context fields. -/

/-- Failures of one calibration step. -/
inductive CalErr where
  | assertionError (msg : String)
  | sampleRateMismatchError
  | degenerateYFactorError
  deriving DecidableEq

/-- One time-domain acquisition as returned by
`acquire_time_domain_samples`: the sample buffer and the reported sample
rate. -/
structure Acquisition where
  data : List ℂ
  sampleRate : ℚ

/-- Instance state and collaborator lookups of `YFactorCalibration`. -/
structure YFactorCtx where
  iirApply : Bool
  iirCutoffHz : ℝ
  iirWidthHz : ℝ
  sosFilt : List ℂ → List ℂ
  sensorEnbwHz : ℝ
  enrLinear : ℝ
  tempK : ℝ

/-- `scipy.constants.Boltzmann`. -/
noncomputable def boltzmannConstant : ℝ := 1.380649e-23

open Classical in
/-- Modelled from the spec: `y_factor` of
`signal_processing.calibration` (spec 4.7): reduce the on and off power
arrays to scalar means, form `y = P_on / P_off`, fail with
`DegenerateYFactorError` when `y ≤ 1`, otherwise return the noise figure
`10 log10(ENR / (y - 1))` and the gain
`10 log10(P_on / (k_B T B_eq (ENR + ENR/(y-1))))`. -/
noncomputable def y_factor (pwrOnWatts pwrOffWatts : List ℝ)
    (enrLinear enbwHz tempK : ℝ) : Except CalErr (ℝ × ℝ) :=
  let pOn := listMean pwrOnWatts
  let pOff := listMean pwrOffWatts
  let y := pOn / pOff
  if y ≤ 1 then .error .degenerateYFactorError
  else
    let noiseFactor := enrLinear / (y - 1)
    let gain := pOn / (boltzmannConstant * tempK * enbwHz * (enrLinear + noiseFactor))
    .ok (10 * Real.logb 10 noiseFactor, 10 * Real.logb 10 gain)

/-- `YFactorCalibration.calibrate`, from the point at which both
acquisitions have returned: assert that the reported sample rates agree
(a bare `assert` whose message is "Sample rate mismatch"); when IIR
filtering is configured take `enbw_hz = (cutoff + width) * 2` and filter
both buffers, otherwise use the stored sensor ENBW and the raw buffers;
halve the samples, compute per-sample power in Watts, run `y_factor`,
and only on success post `(gain, noise_figure)` to the sensor
calibration store.  Returns the step outcome and the updated store. -/
noncomputable def calibrate (ctx : YFactorCtx) (acqOn acqOff : Acquisition)
    (store : List (ℝ × ℝ)) : Except CalErr (ℝ × ℝ) × List (ℝ × ℝ) :=
  if acqOn.sampleRate = acqOff.sampleRate then
    let enbwHz := if ctx.iirApply then (ctx.iirCutoffHz + ctx.iirWidthHz) * 2
      else ctx.sensorEnbwHz
    let noiseOnData := if ctx.iirApply then ctx.sosFilt acqOn.data else acqOn.data
    let noiseOffData := if ctx.iirApply then ctx.sosFilt acqOff.data else acqOff.data
    let pwrOnWatts := (noiseOnData.map fun z => z / 2).map (calculate_power_watts 50)
    let pwrOffWatts := (noiseOffData.map fun z => z / 2).map (calculate_power_watts 50)
    match y_factor pwrOnWatts pwrOffWatts ctx.enrLinear enbwHz ctx.tempK with
    | .error e => (.error e, store)
    | .ok (noiseFigure, gain) => (.ok (noiseFigure, gain), store ++ [(gain, noiseFigure)])
  else (.error (.assertionError "Sample rate mismatch"), store)

/-! ### Claimed (spec-side) pipelines

These definitions follow the words of the specification's claims; the
refinement theorems below compare them with the embeddings above. -/

/-- The spectral pipeline exactly as the claim states it: per-bin squared
magnitudes of forward-normalized FFT frames, one detector reduction
across frames, division by 50 Ω to Watts, FFT-shift, Watts→dBm, then the
three additive corrections in order: −3 dB, −10 log10(sample_rate),
+20 log10(ecf). -/
noncomputable def claimed_spectrum (ctx : SeaCtx) (p : SeaParams)
    (iq : List ℂ) (reduce : List (List ℝ) → List ℝ) : Option (List ℝ) :=
  (get_fft ctx.fftWindow p.fftSize p.nffts iq).map fun frames =>
    (fftshift ((reduce (frames.map fun fr => fr.map calculate_pseudo_power)).map
        fun x => x / 50)).map fun w =>
      convert_watts_to_dBm w - 3 - 10 * Real.logb 10 ctx.sampleRateHz
        + 20 * Real.logb 10 (get_fft_window_correction ctx.fftWindow)

/-- The capture buffer actually fed to the power computation of one
calibration step: filtered when IIR filtering is enabled, raw otherwise. -/
def calibration_input (ctx : YFactorCtx) (acq : Acquisition) : List ℂ :=
  if ctx.iirApply then ctx.sosFilt acq.data else acq.data

/-- The per-capture mean power exactly as the claim states it: halve each
complex sample before magnitude-squaring, divide by 50 Ω, take the
scalar mean. -/
noncomputable def claimed_capture_power (data : List ℂ) : ℝ :=
  listMean (data.map fun z => Complex.normSq (z / 2) / 50)

/-- The equivalent noise bandwidth exactly as the claim states it:
`2 (cutoff + width)` when IIR filtering is enabled, the stored sensor
ENBW otherwise. -/
noncomputable def claimed_enbw (ctx : YFactorCtx) : ℝ :=
  if ctx.iirApply then 2 * (ctx.iirCutoffHz + ctx.iirWidthHz)
  else ctx.sensorEnbwHz

/-! ### Concrete inputs used by witness and counterexample theorems -/

/-- A minimal SEA instance context for concrete evaluation: length-1
rectangular window, unit sample rate, full quantile range, and identity
external operations. -/
noncomputable def wSeaCtx : SeaCtx :=
  ⟨[1], 1, 0, 1, id, fun _ x => x, id⟩

/-- Minimal SEA parameters: no filtering, one frame of one bin, one
1000 ms block at 1 sample per second. -/
noncomputable def wSeaParams : SeaParams :=
  ⟨false, false, 1, 1, 1, 1000, 1, 0⟩

/-- A one-sample capture buffer. -/
noncomputable def wSeaIq : List ℂ := [1]

/-- SEA parameters whose time-domain block size (2 samples) does not
divide the five-sample buffer `cexSeaIq`. -/
noncomputable def cexSeaParams : SeaParams :=
  ⟨false, false, 1, 1, 1, 2, 1000, 0⟩

/-- A five-sample capture buffer: two full blocks of two samples plus
one trailing remainder sample. -/
noncomputable def cexSeaIq : List ℂ := [1, 1, 1, 1, 1]

/-- A calibration context with IIR filtering disabled: identity filter,
unit stored sensor ENBW, linear ENR 10, calibration temperature 290 K. -/
noncomputable def wYCtx : YFactorCtx :=
  ⟨false, 100000, 50000, id, 1, 10, 290⟩

/-! ### Helper lemmas -/

theorem lookup_filter_self (params : List (String × α)) (k : String) :
    (params.filter fun kv => kv.1 != k).lookup k = none := by
  rw [List.lookup_eq_none_iff]
  intro p hp
  have hne : p.1 != k := (List.mem_filter.mp hp).2
  simpa [bne_iff_ne, ne_comm] using hne

theorem lookup_filter_none (params : List (String × α)) (f : String × α → Bool)
    (k : String) (h : params.lookup k = none) :
    (params.filter f).lookup k = none :=
  (List.filter_sublist params).lookup_eq_none h

theorem pop_key_lookup_self (params : List (String × α)) (k : String)
    (v : α) (rest : List (String × α)) (h : pop_key params k = some (v, rest)) :
    rest.lookup k = none := by
  unfold pop_key at h
  cases hl : params.lookup k with
  | none => rw [hl] at h; exact absurd h (by simp)
  | some w =>
    rw [hl] at h
    have hrest : params.filter (fun kv => kv.1 != k) = rest :=
      congrArg Prod.snd (Option.some.inj h)
    rw [← hrest]
    exact lookup_filter_self params k

theorem pop_key_preserves_none (params : List (String × α)) (k j : String)
    (v : α) (rest : List (String × α)) (hj : params.lookup j = none)
    (h : pop_key params k = some (v, rest)) : rest.lookup j = none := by
  unfold pop_key at h
  cases hl : params.lookup k with
  | none => rw [hl] at h; exact absurd h (by simp)
  | some w =>
    rw [hl] at h
    have hrest : params.filter (fun kv => kv.1 != k) = rest :=
      congrArg Prod.snd (Option.some.inj h)
    rw [← hrest]
    exact lookup_filter_none params _ j hj

theorem pop_keys_lookup_none (ks : List String) (params out : List (String × α))
    (h : pop_keys ks params = .ok out) (k : String)
    (hk : k ∈ ks ∨ params.lookup k = none) : out.lookup k = none := by
  induction ks generalizing params with
  | nil =>
    rcases hk with hk | hk
    · exact absurd hk (List.not_mem_nil k)
    · unfold pop_keys at h
      cases h
      exact hk
  | cons k' rest ih =>
    unfold pop_keys at h
    cases hp : pop_key params k' with
    | none => rw [hp] at h; exact absurd h (by simp)
    | some vp =>
      rw [hp] at h
      rcases hk with hk | hk
      · rcases List.mem_cons.mp hk with hk | hk
        · exact ih vp.2 h (Or.inr (hk ▸ pop_key_lookup_self params k' vp.1 vp.2
            (by rw [hp])))
        · exact ih vp.2 h (Or.inl hk)
      · exact ih vp.2 h (Or.inr (pop_key_preserves_none params k' k vp.1 vp.2 hk
          (by rw [hp])))

/-- C9: `NasctnSeaDataProduct.__call__` pops the seven temporary
configuration keys from the instance's shared parameter dict without a
default, so after one successful invocation a second invocation of the
same instance fails with a missing-key error on the first popped key,
`iir_rp_dB`, regardless of hardware availability — i.e. before the
hardware check (and hence before any acquisition) is reached. -/
theorem sea_action_single_use (params out : List (String × ℚ))
    (avail1 avail2 : Bool) (h : sea_call_prologue avail1 params = .ok out) :
    sea_call_prologue avail2 out = .error (.keyError "iir_rp_dB") := by
  have hpop : pop_keys sea_config_keys params = .ok out := by
    unfold sea_call_prologue at h
    cases hp : pop_keys sea_config_keys params with
    | error e => rw [hp] at h; exact absurd h (by simp [Bind.bind, Except.bind])
    | ok p' =>
      rw [hp] at h
      cases avail1 with
      | true =>
        simp only [Bind.bind, Except.bind] at h
        cases h
        rfl
      | false =>
        simp only [Bind.bind, Except.bind] at h
        exact absurd h (by simp)
  have hnone : out.lookup "iir_rp_dB" = none :=
    pop_keys_lookup_none sea_config_keys params out hpop _
      (Or.inl (by simp [sea_config_keys]))
  have hstep : pop_keys sea_config_keys out = .error (.keyError "iir_rp_dB") := by
    simp only [sea_config_keys, pop_keys, pop_key, hnone]
  unfold sea_call_prologue
  rw [hstep]
  simp [Bind.bind, Except.bind]

/-- Witness for `sea_action_single_use` at a concrete parameter dict. -/
theorem sea_action_single_use_witness :
    sea_call_prologue true
      [("frequency", (700000000 : ℚ)), ("duration_ms", 4000)] =
      .error (.keyError "iir_rp_dB") :=
  sea_action_single_use
    [("iir_rp_dB", (1/2 : ℚ)), ("iir_rs_dB", 40), ("iir_cutoff_Hz", 100000),
     ("iir_width_Hz", 50000), ("qfilt_qlo", 1/100), ("qfilt_qhi", 9/10),
     ("fft_window_type", 0), ("frequency", 700000000), ("duration_ms", 4000)]
    [("frequency", (700000000 : ℚ)), ("duration_ms", 4000)]
    true true rfl

/-- C10: the stepped-frequency time-domain IQ action sorts its per-step
parameter dicts by ascending center frequency at construction and its
capture loop visits them in that order: the sorted list is pairwise
nondecreasing in frequency, it is a permutation of the per-step dicts
built from the configured lists (whatever their configured order), no
per-step dict retains the `name` key, and the visited frequency sequence
is nondecreasing. -/
theorem stepped_freq_sorted_ascending (params : List (String × List ℚ)) :
    (sorted_measurement_parameters params).Pairwise
        (fun a b => stepFreq a ≤ stepFreq b)
    ∧ (sorted_measurement_parameters params).Perm
        (buildSteps (params.filter fun kv => kv.1 != "name"))
    ∧ (∀ s ∈ sorted_measurement_parameters params, ∀ kv ∈ s, kv.1 ≠ "name")
    ∧ (acquisition_order params).Pairwise (· ≤ ·) := by
  have hsorted : (sorted_measurement_parameters params).Pairwise
      (fun a b => stepFreq a ≤ stepFreq b) := by
    have := @List.sorted_mergeSort _
      (fun a b => decide (stepFreq a ≤ stepFreq b))
      (fun a b c hab hbc => by
        simp only [decide_eq_true_eq] at *
        exact le_trans hab hbc)
      (fun a b => by
        simp only [Bool.or_eq_true, decide_eq_true_eq]
        exact le_total _ _)
      (buildSteps (params.filter fun kv => kv.1 != "name"))
    exact this.imp fun h => of_decide_eq_true h
  refine ⟨hsorted, List.mergeSort_perm _ _, ?_, ?_⟩
  · intro s hs kv hkv
    have hs' : s ∈ buildSteps (params.filter fun kv => kv.1 != "name") :=
      List.mem_mergeSort.mp hs
    rw [buildSteps] at hs'
    obtain ⟨i, -, rfl⟩ := List.mem_map.mp hs'
    rw [stepAt] at hkv
    obtain ⟨kv0, hkv0, rfl⟩ := List.mem_map.mp hkv
    have := (List.mem_filter.mp hkv0).2
    simpa [bne_iff_ne] using this
  · exact List.pairwise_map.mpr hsorted

/-- C8: `NasctnSeaDataProduct.get_apd_results` returns the APD
probability axis exactly as produced by `get_apd`, and the amplitude
axis transformed pointwise by `a ↦ 2 a + (27 − 10 log10 50)`. -/
theorem apd_results_scaling (p : SeaParams) (iq : List ℂ) :
    get_apd_results p iq =
      ((get_apd p.apdBinSizeDb iq).1,
       (get_apd p.apdBinSizeDb iq).2.map fun a =>
         2 * a + (27 - 10 * Real.logb 10 50)) := by
  unfold get_apd_results convert_linear_to_dB
  refine Prod.ext rfl ?_
  simp only
  exact List.map_congr_left fun a _ => by ring

/-- C3: `NasctnSeaDataProduct.generate_data_product` assembles, per
capture: the spectral estimate computed on the unfiltered IQ buffer,
then — only when `iir_apply` is enabled — the IIR-filtered IQ, then the
time-domain power statistics and the APD both on the possibly-filtered
IQ, yielding the six arrays in the fixed order FFT-mean, FFT-max,
TD-mean, TD-max, APD-probability, APD-amplitude. -/
theorem data_product_assembly_order (ctx : SeaCtx) (p : SeaParams)
    (iq : List ℂ) :
    assemble_data_product ctx p iq =
      (get_fft_results ctx p iq).bind fun fftRes =>
        (get_td_power_results ctx p
            (if p.iirApply then ctx.sosFilt iq else iq)).map fun tdRes =>
          [fftRes.1, fftRes.2, tdRes.1, tdRes.2,
           (get_apd_results p (if p.iirApply then ctx.sosFilt iq else iq)).1,
           (get_apd_results p (if p.iirApply then ctx.sosFilt iq else iq)).2] := by
  unfold assemble_data_product filtered_iq
  cases get_fft_results ctx p iq with
  | none => rfl
  | some fftRes =>
    cases get_td_power_results ctx p (if p.iirApply then ctx.sosFilt iq else iq) with
    | none => rfl
    | some tdRes => rfl

theorem fft_scaling_eq (ctx : SeaCtx) (row : List ℝ) :
    fft_scaling ctx row =
      (fftshift (row.map fun x => x / 50)).map fun w =>
        convert_watts_to_dBm w - 3 - 10 * Real.logb 10 ctx.sampleRateHz
          + 20 * Real.logb 10 (get_fft_window_correction ctx.fftWindow) := by
  unfold fft_scaling
  simp only [List.map_map]
  rfl

/-- C2: the two spectral arrays of `NasctnSeaDataProduct.get_fft_results`
are, in order: per-bin squared magnitudes of forward-normalized FFT
frames, a mean (resp. max) detector reduction across frames, division by
50 Ω to Watts, an FFT-shift placing the most negative frequency at index
0, Watts→dBm conversion, then the additive corrections −3 dB,
−10 log10(sample_rate), +20 log10(ecf), in that order. -/
theorem fft_results_pipeline (ctx : SeaCtx) (p : SeaParams) (iq : List ℂ) :
    (get_fft_results ctx p iq).map Prod.fst =
        claimed_spectrum ctx p iq fft_mean_detector
    ∧ (get_fft_results ctx p iq).map Prod.snd =
        claimed_spectrum ctx p iq fft_max_detector := by
  unfold get_fft_results claimed_spectrum
  cases get_fft ctx.fftWindow p.fftSize p.nffts iq with
  | none => exact ⟨rfl, rfl⟩
  | some frames =>
    exact ⟨congrArg some (fft_scaling_eq ctx _),
           congrArg some (fft_scaling_eq ctx _)⟩

/-- C1: after the six arrays are assembled, `generate_data_product`
rounds every array except the one at index 4 — the APD probability
axis — to `round_to_places` decimals, and then converts every array,
including the APD probability axis, to half precision; the probability
axis is the only array never rounded. -/
theorem data_product_rounding (ctx : SeaCtx) (p : SeaParams) (iq : List ℂ)
    (fr td : List ℝ × List ℝ)
    (hf : get_fft_results ctx p iq = some fr)
    (ht : get_td_power_results ctx p (filtered_iq ctx p iq) = some td) :
    generate_data_product ctx p iq = some
      [(fr.1.map (ctx.npRound p.roundTo)).map ctx.npHalf,
       (fr.2.map (ctx.npRound p.roundTo)).map ctx.npHalf,
       (td.1.map (ctx.npRound p.roundTo)).map ctx.npHalf,
       (td.2.map (ctx.npRound p.roundTo)).map ctx.npHalf,
       (get_apd_results p (filtered_iq ctx p iq)).1.map ctx.npHalf,
       ((get_apd_results p (filtered_iq ctx p iq)).2.map
          (ctx.npRound p.roundTo)).map ctx.npHalf] := by
  unfold generate_data_product assemble_data_product
  rw [hf, ht]
  simp only [Bind.bind, Option.bind]
  unfold quantize_data_product
  simp [List.enum, List.enumFrom]

/-- Witness for `data_product_rounding` at a concrete one-sample capture. -/
theorem data_product_rounding_witness :
    generate_data_product wSeaCtx wSeaParams wSeaIq = some
      [(((get_fft_results wSeaCtx wSeaParams wSeaIq).getD ([], [])).1.map
          (wSeaCtx.npRound wSeaParams.roundTo)).map wSeaCtx.npHalf,
       (((get_fft_results wSeaCtx wSeaParams wSeaIq).getD ([], [])).2.map
          (wSeaCtx.npRound wSeaParams.roundTo)).map wSeaCtx.npHalf,
       (((get_td_power_results wSeaCtx wSeaParams
            (filtered_iq wSeaCtx wSeaParams wSeaIq)).getD ([], [])).1.map
          (wSeaCtx.npRound wSeaParams.roundTo)).map wSeaCtx.npHalf,
       (((get_td_power_results wSeaCtx wSeaParams
            (filtered_iq wSeaCtx wSeaParams wSeaIq)).getD ([], [])).2.map
          (wSeaCtx.npRound wSeaParams.roundTo)).map wSeaCtx.npHalf,
       (get_apd_results wSeaParams (filtered_iq wSeaCtx wSeaParams wSeaIq)).1.map
          wSeaCtx.npHalf,
       ((get_apd_results wSeaParams (filtered_iq wSeaCtx wSeaParams wSeaIq)).2.map
          (wSeaCtx.npRound wSeaParams.roundTo)).map wSeaCtx.npHalf] :=
  data_product_rounding wSeaCtx wSeaParams wSeaIq
    ((get_fft_results wSeaCtx wSeaParams wSeaIq).getD ([], []))
    ((get_td_power_results wSeaCtx wSeaParams
        (filtered_iq wSeaCtx wSeaParams wSeaIq)).getD ([], []))
    rfl
    (by simp [get_td_power_results, filtered_iq, wSeaCtx, wSeaParams, wSeaIq,
      td_block_size, pyInt, reshapeExact, chunkList])

/-- C4 (amended): in `NasctnSeaDataProduct.get_td_power_results`,
`block_size` equals `⌊block_duration_ms · sample_rate / 1000⌋` (for
nonnegative parameters), and the buffer is reshaped into
`n_blocks = len(samples) / block_size` contiguous blocks exactly when
`block_size` divides `len(samples)`; when it does not, the reshape fails
(numpy raises `ValueError`) — trailing remainder samples are not
dropped. -/
theorem td_power_block_reshape (ctx : SeaCtx) (p : SeaParams) (iq : List ℂ)
    (h0 : 0 ≤ p.tdBinSizeMs * p.sampleRate) :
    td_block_size p = ⌊p.tdBinSizeMs * p.sampleRate / 1000⌋
    ∧ ((td_block_size p).toNat ∣ iq.length →
        reshapeExact (iq.length / (td_block_size p).toNat)
            ((td_block_size p).toNat) iq =
          some (chunkList (iq.length / (td_block_size p).toNat)
            ((td_block_size p).toNat) iq))
    ∧ (¬ (td_block_size p).toNat ∣ iq.length →
        get_td_power_results ctx p iq = none) := by
  refine ⟨?_, ?_, ?_⟩
  · unfold td_block_size pyInt
    rw [if_pos (div_nonneg h0 (by norm_num))]
  · intro hdvd
    unfold reshapeExact
    rw [if_pos (Nat.div_mul_cancel hdvd).symm]
  · intro hndvd
    have hne : iq.length ≠
        (iq.length / (td_block_size p).toNat) * (td_block_size p).toNat := by
      intro heq
      exact hndvd (Dvd.intro_left _ heq.symm)
    unfold get_td_power_results
    simp [reshapeExact, hne, Bind.bind, Option.bind]

/-- Witness for `td_power_block_reshape` at concrete parameters
(2 ms blocks at 1000 samples per second on a five-sample buffer). -/
theorem td_power_block_reshape_witness :
    td_block_size cexSeaParams =
        ⌊cexSeaParams.tdBinSizeMs * cexSeaParams.sampleRate / 1000⌋
    ∧ ((td_block_size cexSeaParams).toNat ∣ cexSeaIq.length →
        reshapeExact (cexSeaIq.length / (td_block_size cexSeaParams).toNat)
            ((td_block_size cexSeaParams).toNat) cexSeaIq =
          some (chunkList (cexSeaIq.length / (td_block_size cexSeaParams).toNat)
            ((td_block_size cexSeaParams).toNat) cexSeaIq))
    ∧ (¬ (td_block_size cexSeaParams).toNat ∣ cexSeaIq.length →
        get_td_power_results wSeaCtx cexSeaParams cexSeaIq = none) :=
  td_power_block_reshape wSeaCtx cexSeaParams cexSeaIq (by norm_num [cexSeaParams])

/-- C4 counterexample: on a five-sample buffer with a two-sample block
size, `get_td_power_results` fails (`None`, modelling numpy's
`ValueError`) instead of dropping the trailing remainder sample, so the
claim that remainder samples "are dropped rather than causing a failure"
is false on the code. -/
theorem td_power_remainder_failure :
    get_td_power_results wSeaCtx cexSeaParams cexSeaIq = none := by
  norm_num [get_td_power_results, td_block_size, pyInt, reshapeExact,
    cexSeaParams, cexSeaIq, Int.toNat_ofNat]
  exact fun h => absurd h (by decide)

theorem real_div_self_le_one (a : ℝ) : a / a ≤ 1 := by
  rcases eq_or_ne a 0 with h | h
  · simp [h]
  · rw [div_self h]

theorem power_list_fused (d : List ℂ) :
    (d.map fun z => z / 2).map (calculate_power_watts 50) =
      d.map fun z => Complex.normSq (z / 2) / 50 := by
  rw [List.map_map]; rfl

/-- C6 (amended): when the noise-diode-on and -off acquisitions report
different sample rates, `YFactorCalibration.calibrate` fails through a
bare `assert` — an `AssertionError` carrying the message "Sample rate
mismatch", not an exception class named for the condition — and the
calibration store is left unchanged; when the rates agree, the
computation proceeds to the Y-factor evaluation. -/
theorem sample_rate_mismatch_assert (ctx : YFactorCtx)
    (acqOn acqOff : Acquisition) (store : List (ℝ × ℝ)) :
    (acqOn.sampleRate ≠ acqOff.sampleRate →
      calibrate ctx acqOn acqOff store =
        (.error (.assertionError "Sample rate mismatch"), store))
    ∧ (acqOn.sampleRate = acqOff.sampleRate →
      (calibrate ctx acqOn acqOff store).1 =
        y_factor
          (((calibration_input ctx acqOn).map fun z => z / 2).map
            (calculate_power_watts 50))
          (((calibration_input ctx acqOff).map fun z => z / 2).map
            (calculate_power_watts 50))
          ctx.enrLinear
          (if ctx.iirApply then (ctx.iirCutoffHz + ctx.iirWidthHz) * 2
            else ctx.sensorEnbwHz)
          ctx.tempK) := by
  constructor
  · intro hne
    unfold calibrate
    rw [if_neg hne]
  · intro heq
    unfold calibrate
    rw [if_pos heq]
    unfold calibration_input
    cases hy : y_factor
        ((((if ctx.iirApply then ctx.sosFilt acqOn.data else acqOn.data)).map
          fun z => z / 2).map (calculate_power_watts 50))
        ((((if ctx.iirApply then ctx.sosFilt acqOff.data else acqOff.data)).map
          fun z => z / 2).map (calculate_power_watts 50))
        ctx.enrLinear
        (if ctx.iirApply then (ctx.iirCutoffHz + ctx.iirWidthHz) * 2
          else ctx.sensorEnbwHz)
        ctx.tempK with
    | error e => simp only [hy]
    | ok pair =>
      obtain ⟨nf, g⟩ := pair
      simp only [hy]

/-- Witness for `sample_rate_mismatch_assert` at a concrete pair of
acquisitions whose sample rates differ. -/
theorem sample_rate_mismatch_assert_witness :
    calibrate wYCtx ⟨[1], 10⟩ ⟨[1], 20⟩ [] =
      (.error (.assertionError "Sample rate mismatch"), []) :=
  (sample_rate_mismatch_assert wYCtx ⟨[1], 10⟩ ⟨[1], 20⟩ []).1 (by decide)

/-- C6 counterexample: at a concrete rate mismatch the error produced is
the bare assertion's `AssertionError "Sample rate mismatch"`, which is
not an error named for the sample-rate-mismatch condition, refuting the
claim that a named `SampleRateMismatchError` is raised. -/
theorem sample_rate_mismatch_error_type :
    calibrate wYCtx ⟨[1], 10⟩ ⟨[1], 20⟩ [] =
      (.error (.assertionError "Sample rate mismatch"), [])
    ∧ CalErr.assertionError "Sample rate mismatch" ≠
        CalErr.sampleRateMismatchError := by
  constructor
  · unfold calibrate
    rw [if_neg (by decide)]
  · exact fun h => nomatch h

/-- C7: whenever the measured Y-factor `P_on / P_off` is at most 1,
`YFactorCalibration.calibrate` fails with `DegenerateYFactorError`
(rather than producing an infinite or undefined noise figure), and the
calibration store is not updated — the update is reached only after a
successful Y-factor computation. -/
theorem degenerate_y_factor_guard (ctx : YFactorCtx)
    (acqOn acqOff : Acquisition) (store : List (ℝ × ℝ)) (pOn pOff : ℝ)
    (hpOn : pOn = claimed_capture_power (calibration_input ctx acqOn))
    (hpOff : pOff = claimed_capture_power (calibration_input ctx acqOff))
    (hsr : acqOn.sampleRate = acqOff.sampleRate)
    (hy : pOn / pOff ≤ 1) :
    calibrate ctx acqOn acqOff store = (.error .degenerateYFactorError, store) := by
  unfold calibrate
  rw [if_pos hsr]
  unfold y_factor
  simp only [power_list_fused]
  have hmOn : listMean ((if ctx.iirApply then ctx.sosFilt acqOn.data
      else acqOn.data).map fun z => Complex.normSq (z / 2) / 50) = pOn := by
    rw [hpOn]; rfl
  have hmOff : listMean ((if ctx.iirApply then ctx.sosFilt acqOff.data
      else acqOff.data).map fun z => Complex.normSq (z / 2) / 50) = pOff := by
    rw [hpOff]; rfl
  simp only [hmOn, hmOff, if_pos hy]

/-- Witness for `degenerate_y_factor_guard`: identical on and off
captures give `y = 1 ≤ 1`. -/
theorem degenerate_y_factor_guard_witness :
    calibrate wYCtx ⟨[2], 10⟩ ⟨[2], 10⟩ [] =
      (.error .degenerateYFactorError, []) :=
  degenerate_y_factor_guard wYCtx ⟨[2], 10⟩ ⟨[2], 10⟩ []
    (claimed_capture_power (calibration_input wYCtx ⟨[2], 10⟩))
    (claimed_capture_power (calibration_input wYCtx ⟨[2], 10⟩))
    rfl rfl rfl (real_div_self_le_one _)

/-- C5: for each calibration step with agreeing sample rates and a
nondegenerate Y-factor, `YFactorCalibration.calibrate` reports exactly
the claimed quantities: with `P_on`, `P_off` the scalar means of the
per-sample powers of the half-scaled (possibly filtered) buffers over
50 Ω, and `y = P_on / P_off`, it returns the noise figure
`10 log10(ENR / (y − 1))` and the gain
`10 log10(P_on / (k_B · T · B_eq · (ENR + ENR/(y−1))))`, where `B_eq` is
`2 (cutoff + width)` under IIR filtering and the stored sensor ENBW
otherwise, and posts `(gain, noise_figure)` to the calibration store. -/
theorem y_factor_calibration_formulas (ctx : YFactorCtx)
    (acqOn acqOff : Acquisition) (store : List (ℝ × ℝ)) (pOn pOff : ℝ)
    (hpOn : pOn = claimed_capture_power (calibration_input ctx acqOn))
    (hpOff : pOff = claimed_capture_power (calibration_input ctx acqOff))
    (hsr : acqOn.sampleRate = acqOff.sampleRate)
    (hy : 1 < pOn / pOff) :
    calibrate ctx acqOn acqOff store =
      (.ok (10 * Real.logb 10 (ctx.enrLinear / (pOn / pOff - 1)),
            10 * Real.logb 10 (pOn /
              (boltzmannConstant * ctx.tempK * claimed_enbw ctx *
                (ctx.enrLinear + ctx.enrLinear / (pOn / pOff - 1))))),
       store ++
         [(10 * Real.logb 10 (pOn /
             (boltzmannConstant * ctx.tempK * claimed_enbw ctx *
               (ctx.enrLinear + ctx.enrLinear / (pOn / pOff - 1)))),
           10 * Real.logb 10 (ctx.enrLinear / (pOn / pOff - 1)))]) := by
  have henbw : (if ctx.iirApply then (ctx.iirCutoffHz + ctx.iirWidthHz) * 2
      else ctx.sensorEnbwHz) = claimed_enbw ctx := by
    unfold claimed_enbw
    rcases ctx.iirApply <;> simp [mul_comm]
  unfold calibrate
  rw [if_pos hsr]
  unfold y_factor
  simp only [power_list_fused]
  have hmOn : listMean ((if ctx.iirApply then ctx.sosFilt acqOn.data
      else acqOn.data).map fun z => Complex.normSq (z / 2) / 50) = pOn := by
    rw [hpOn]; rfl
  have hmOff : listMean ((if ctx.iirApply then ctx.sosFilt acqOff.data
      else acqOff.data).map fun z => Complex.normSq (z / 2) / 50) = pOff := by
    rw [hpOff]; rfl
  simp only [hmOn, hmOff, henbw, if_neg (not_le.mpr hy)]

/-- Witness for `y_factor_calibration_formulas`: a one-sample on-capture
of amplitude 2 and off-capture of amplitude 1 at the same rate give
`P_on = 1/50`, `P_off = 1/200`, `y = 4 > 1`. -/
theorem y_factor_calibration_formulas_witness :
    calibrate wYCtx ⟨[2], 10⟩ ⟨[1], 10⟩ [] =
      (.ok (10 * Real.logb 10 (wYCtx.enrLinear / ((1/50 : ℝ) / (1/200) - 1)),
            10 * Real.logb 10 ((1/50 : ℝ) /
              (boltzmannConstant * wYCtx.tempK * claimed_enbw wYCtx *
                (wYCtx.enrLinear + wYCtx.enrLinear / ((1/50 : ℝ) / (1/200) - 1))))),
       [(10 * Real.logb 10 ((1/50 : ℝ) /
           (boltzmannConstant * wYCtx.tempK * claimed_enbw wYCtx *
             (wYCtx.enrLinear + wYCtx.enrLinear / ((1/50 : ℝ) / (1/200) - 1)))),
         10 * Real.logb 10 (wYCtx.enrLinear / ((1/50 : ℝ) / (1/200) - 1)))]) :=
  y_factor_calibration_formulas wYCtx ⟨[2], 10⟩ ⟨[1], 10⟩ [] (1/50) (1/200)
    (by
      have h2 : (2:ℂ)/2 = 1 := by norm_num
      simp [claimed_capture_power, calibration_input, wYCtx, listMean, h2])
    (by
      have h2 : ((1:ℂ)/2) = ((1/2 : ℝ) : ℂ) := by push_cast; ring
      simp [claimed_capture_power, calibration_input, wYCtx, listMean, h2,
        Complex.normSq_ofReal]
      norm_num)
    rfl
    (by norm_num)
